import Mathlib

/-!
Verification of the Pomodoro timer state machine (`src/main.rs`).

The embedding mirrors the source: `Duration` is a non-negative count of
nanoseconds (Rust `std::time::Duration`), `Status` is the phase enum,
`Pomo` the session record, and `Status.elapsed` / `Pomo.elapsed` /
`Pomo.toggle_pause` follow the corresponding Rust methods.  Since
`Status::elapsed` calls `exec_cmd` (a side effect) to send notifications,
the embedded functions additionally return the list of notifications
emitted, each a `(title, body)` pair of the `notify-send` invocation.
-/

/-- Rust `std::time::Duration`: a non-negative amount of time, counted here
in nanoseconds. -/
abbrev Duration := Nat

/-- `Duration::from_secs`. -/
def Duration.from_secs (s : Nat) : Duration := s * 1000000000

/-- `Duration::as_secs`: whole seconds, fractional part truncated. -/
def Duration.as_secs (d : Duration) : Nat := d / 1000000000

/-- `Duration::checked_sub`: `some (d - e)` when `e ≤ d`, `none` on
underflow. -/
def Duration.checked_sub (d e : Duration) : Option Duration :=
  if e ≤ d then some (d - e) else none

/-- `WORKING_INTERVAL: Duration = Duration::from_secs(1500)` (25 min). -/
def WORKING_INTERVAL : Duration := Duration.from_secs 1500

/-- `BREAKING_INTERVAL: Duration = Duration::from_secs(300)` (5 min). -/
def BREAKING_INTERVAL : Duration := Duration.from_secs 300

/-- `NAPPING_INTERVAL: Duration = Duration::from_secs(900)` (15 min). -/
def NAPPING_INTERVAL : Duration := Duration.from_secs 900

/-- The `Status` enum: the current phase of the cycle. -/
inductive Status where
  | Working (i : Nat) (remain : Duration)
  | Resting (i : Nat) (remain : Duration)
  | Napping (remain : Duration)
deriving DecidableEq

/-- `impl Default for Status`: `Working(0, WORKING_INTERVAL)`. -/
def Status.default : Status := Status.Working 0 WORKING_INTERVAL

/-- A notification as sent by `exec_cmd(&vec!["notify-send", title, body])`:
the `(title, body)` pair. -/
abbrev Notice := String × String

/-- `Status::elapsed`: subtract the elapsed duration from the remaining one;
on underflow of `checked_sub`, transition to the next phase and emit the
corresponding notification. -/
def Status.elapsed (s : Status) (d : Duration) : Status × List Notice :=
  match s with
  | Status.Working i remain =>
    match remain.checked_sub d with
    | some remain => (Status.Working i remain, [])
    | none =>
      (Status.Resting i BREAKING_INTERVAL, [("pomodoro", "Time to take a break")])
  | Status.Resting i remain =>
    match remain.checked_sub d with
    | some remain => (Status.Resting i remain, [])
    | none =>
      if i + 1 = 4 then
        (Status.Napping NAPPING_INTERVAL, [("pomodoro", "Time to take some nap")])
      else
        (Status.Working (i + 1) WORKING_INTERVAL, [("pomodoro", "Time to start working")])
  | Status.Napping remain =>
    match remain.checked_sub d with
    | some remain => (Status.Napping remain, [])
    | none =>
      (Status.Working 0 WORKING_INTERVAL, [("pomodoro", "Time to start working")])

/-- The remaining duration stored in a phase. -/
def Status.remain : Status → Duration
  | Status.Working _ remain => remain
  | Status.Resting _ remain => remain
  | Status.Napping remain => remain

/-- The round counter of a phase (`none` for `Napping`). -/
def Status.round : Status → Option Nat
  | Status.Working i _ => some i
  | Status.Resting i _ => some i
  | Status.Napping _ => none

/-- The `Pomo` struct: pause flag plus current phase. -/
structure Pomo where
  paused : Bool
  status : Status
deriving DecidableEq

/-- `impl Default for Pomo` (derived): `paused = false`, default status. -/
def Pomo.default : Pomo := Pomo.mk false Status.default

/-- `Pomo::new()`: returns `Pomo::default()`. -/
def Pomo.new : Pomo := Pomo.default

/-- `Pomo::elapsed`: early-returns when paused, otherwise replaces the
status by `Status::elapsed` of it. -/
def Pomo.elapsed (p : Pomo) (dur : Duration) : Pomo × List Notice :=
  if p.paused then (p, [])
  else
    let r := p.status.elapsed dur
    (Pomo.mk p.paused r.1, r.2)

/-- `Pomo::toggle_pause`: `self.paused ^= true`. -/
def Pomo.toggle_pause (p : Pomo) : Pomo :=
  Pomo.mk (xor p.paused true) p.status

/-- The operations the plugin's `update` loop performs on the session:
a `Timer` tick forwards elapsed time, `<space>` toggles pause, and
`<r>` replaces the session by `Pomo::new()`. -/
inductive Op where
  | advance (d : Duration)
  | toggle
  | reset
deriving DecidableEq

/-- One `update` step acting on the session. -/
def applyOp (p : Pomo) (o : Op) : Pomo :=
  match o with
  | Op.advance d => (p.elapsed d).1
  | Op.toggle => p.toggle_pause
  | Op.reset => Pomo.new

/-- Run a sequence of operations from a starting session. -/
def runOps (p : Pomo) (l : List Op) : Pomo := l.foldl applyOp p

/-- A session reachable from the default session by some operation
sequence. -/
def Reachable (p : Pomo) : Prop := ∃ l, runOps Pomo.default l = p

/-- Drive a phase to exhaustion: advance by strictly more than the
remaining duration (one nanosecond more suffices). -/
def Status.exhaust (s : Status) : Status := (s.elapsed (s.remain + 1)).1

/-- `{:02}` formatting of Rust: decimal digits, zero-padded on the left to
a minimum width of 2. -/
def pad2 (n : Nat) : String := if n < 10 then ("0" ++ toString n) else toString n

/-- `impl fmt::Display for Status`. -/
def Status.display (s : Status) : String :=
  match s with
  | Status.Working i d =>
    "Working(round " ++ toString (i + 1) ++ "): remaining " ++
      pad2 (d.as_secs / 60) ++ ":" ++ pad2 (d.as_secs % 60)
  | Status.Resting i d =>
    "Resting(round " ++ toString (i + 1) ++ "): remaining " ++
      pad2 (d.as_secs / 60) ++ ":" ++ pad2 (d.as_secs % 60)
  | Status.Napping d =>
    "Napping: remaining " ++ pad2 (d.as_secs / 60) ++ ":" ++ pad2 (d.as_secs % 60)

/-- `impl fmt::Display for Pomo`: the status, then `" [paused]"` iff
paused. -/
def Pomo.display (p : Pomo) : String :=
  p.status.display ++ (if p.paused then (" [paused]") else (""))

/-- The same phase constructor with its remaining duration replaced. -/
def Status.withRemain : Status → Duration → Status
  | Status.Working i _, r => Status.Working i r
  | Status.Resting i _, r => Status.Resting i r
  | Status.Napping _, r => Status.Napping r

/-- C1 counterexample: `checked_sub` succeeds on exact equality, so
`advance(Working(i, 5s), elapsed = 5s)` does NOT transition: it yields
`Working(i, 0)` with no notification, and reset followed by an advance of
exactly 1500 s yields `Working(0, 0)` — not `Resting(0, 5 min)` — with no
notification. -/
theorem C1_exact_equality_counterexample :
    Status.elapsed (Status.Working 0 (Duration.from_secs 5)) (Duration.from_secs 5)
        = (Status.Working 0 0, []) ∧
    Pomo.elapsed Pomo.new (Duration.from_secs 1500)
        = (Pomo.mk false (Status.Working 0 0), []) ∧
    (Pomo.elapsed Pomo.new (Duration.from_secs 1500)).1.status
        ≠ Status.Resting 0 BREAKING_INTERVAL := by
  refine ⟨by decide, by decide, by decide⟩

/-- C1 (amended): exhaustion is exact-exclusive. For every phase, advancing
by exactly the remaining duration keeps the same phase with remaining 0 and
emits no notification; in particular reset followed by an advance of exactly
1500 s yields `Working(0, 0)` with no notification (the transition to
`Resting` then needs a further strictly positive advance). -/
theorem C1_exact_equality_amended :
    (∀ s : Status, Status.elapsed s s.remain = (s.withRemain 0, [])) ∧
    Pomo.elapsed Pomo.new (Duration.from_secs 1500)
        = (Pomo.mk false (Status.Working 0 0), []) := by
  constructor
  · intro s
    cases s <;>
      simp [Status.elapsed, Status.remain, Status.withRemain, Duration.checked_sub]
  · decide

/-- C2: with `elapsed` strictly greater than `remaining`, `checked_sub`
underflows and exactly one transition fires, installing the fresh full
interval regardless of the excess: Working(i) → Resting(i, 5 min) with
"Time to take a break"; Resting(i), i+1 = 4 → Napping(15 min) with
"Time to take some nap"; Resting(i), i+1 ≠ 4 → Working(i+1, 25 min) with
"Time to start working"; Napping → Working(0, 25 min) with
"Time to start working". -/
theorem C2_exhaustion_transitions :
    (∀ (i : Nat) (remain d : Duration), remain < d →
      Status.elapsed (Status.Working i remain) d
        = (Status.Resting i BREAKING_INTERVAL, [("pomodoro", "Time to take a break")])) ∧
    (∀ (i : Nat) (remain d : Duration), remain < d → i + 1 = 4 →
      Status.elapsed (Status.Resting i remain) d
        = (Status.Napping NAPPING_INTERVAL, [("pomodoro", "Time to take some nap")])) ∧
    (∀ (i : Nat) (remain d : Duration), remain < d → i + 1 ≠ 4 →
      Status.elapsed (Status.Resting i remain) d
        = (Status.Working (i + 1) WORKING_INTERVAL, [("pomodoro", "Time to start working")])) ∧
    (∀ (remain d : Duration), remain < d →
      Status.elapsed (Status.Napping remain) d
        = (Status.Working 0 WORKING_INTERVAL, [("pomodoro", "Time to start working")])) := by
  refine ⟨fun i remain d h => ?_, fun i remain d h h4 => ?_,
    fun i remain d h h4 => ?_, fun remain d h => ?_⟩
  · simp [Status.elapsed, Duration.checked_sub, Nat.not_le.mpr h]
  · simp [Status.elapsed, Duration.checked_sub, Nat.not_le.mpr h, h4]
  · simp [Status.elapsed, Duration.checked_sub, Nat.not_le.mpr h, h4]
  · simp [Status.elapsed, Duration.checked_sub, Nat.not_le.mpr h]

/-- Witness for C2 at concrete inputs, one per transition. -/
theorem C2_exhaustion_transitions_witness :
    Status.elapsed (Status.Working 0 5) 6
        = (Status.Resting 0 BREAKING_INTERVAL, [("pomodoro", "Time to take a break")]) ∧
    Status.elapsed (Status.Resting 3 5) 6
        = (Status.Napping NAPPING_INTERVAL, [("pomodoro", "Time to take some nap")]) ∧
    Status.elapsed (Status.Resting 0 5) 6
        = (Status.Working 1 WORKING_INTERVAL, [("pomodoro", "Time to start working")]) ∧
    Status.elapsed (Status.Napping 5) 6
        = (Status.Working 0 WORKING_INTERVAL, [("pomodoro", "Time to start working")]) :=
  ⟨C2_exhaustion_transitions.1 0 5 6 (by decide),
   C2_exhaustion_transitions.2.1 3 5 6 (by decide) (by decide),
   C2_exhaustion_transitions.2.2.1 0 5 6 (by decide) (by decide),
   C2_exhaustion_transitions.2.2.2 5 6 (by decide)⟩

/-- C3: with `remaining > elapsed`, the advance is pure subtraction:
`Working(i, remaining - elapsed)` and no notification. -/
theorem C3_pure_subtraction (i : Nat) (remain d : Duration) (h : d < remain) :
    Status.elapsed (Status.Working i remain) d
      = (Status.Working i (remain - d), []) := by
  simp [Status.elapsed, Duration.checked_sub, Nat.le_of_lt h]

/-- Witness for C3: Working(2, 10 ns) advanced by 3 ns. -/
theorem C3_pure_subtraction_witness :
    Status.elapsed (Status.Working 2 10) 3 = (Status.Working 2 7, []) :=
  C3_pure_subtraction 2 10 3 (by decide)

/-- Exhaustion (any strictly larger elapsed) gives the same successor as
`Status.exhaust`: the transition target does not depend on the excess. -/
theorem elapsed_exhaust (s : Status) (d : Duration) (h : s.remain < d) :
    (Status.elapsed s d).1 = s.exhaust := by
  cases s <;> simp only [Status.remain] at h <;>
    simp [Status.exhaust, Status.elapsed, Status.remain, Duration.checked_sub,
      Nat.not_le.mpr h, Nat.not_succ_le_self]

/-- C4: round cycling. Driving each phase to exhaustion (any elapsed
strictly above the remaining duration — the successor is independent of the
excess) starting from the default phase visits
Working(0), Resting(0), Working(1), Resting(1), Working(2), Resting(2),
Working(3), Resting(3), Napping, and returns to Working(0) with the full
25-minute interval. -/
theorem C4_round_cycling :
    (∀ (s : Status) (d : Duration), s.remain < d →
      (Status.elapsed s d).1 = s.exhaust) ∧
    ([0, 1, 2, 3, 4, 5, 6, 7, 8, 9].map
        fun n => Status.exhaust^[n] Status.default) =
      [Status.Working 0 WORKING_INTERVAL, Status.Resting 0 BREAKING_INTERVAL,
       Status.Working 1 WORKING_INTERVAL, Status.Resting 1 BREAKING_INTERVAL,
       Status.Working 2 WORKING_INTERVAL, Status.Resting 2 BREAKING_INTERVAL,
       Status.Working 3 WORKING_INTERVAL, Status.Resting 3 BREAKING_INTERVAL,
       Status.Napping NAPPING_INTERVAL, Status.Working 0 WORKING_INTERVAL] :=
  ⟨elapsed_exhaust, by decide⟩

/-- Witness for C4: exhausting `Working(0, 5 ns)` with 7 ns. -/
theorem C4_round_cycling_witness :
    (Status.elapsed (Status.Working 0 5) 7).1 = Status.exhaust (Status.Working 0 5) :=
  C4_round_cycling.1 (Status.Working 0 5) 7 (by decide)

/-- The round counter of a Working or Resting phase is at most 3. -/
def Status.roundLE3 : Status → Prop
  | Status.Working i _ => i ≤ 3
  | Status.Resting i _ => i ≤ 3
  | Status.Napping _ => True

/-- `Status::elapsed` preserves the round bound. -/
theorem roundLE3_elapsed (s : Status) (d : Duration) (h : s.roundLE3) :
    ((Status.elapsed s d).1).roundLE3 := by
  cases s with
  | Working i r =>
    simp only [Status.elapsed]
    cases Duration.checked_sub r d <;>
      simpa [Status.roundLE3] using h
  | Resting i r =>
    simp only [Status.elapsed]
    cases Duration.checked_sub r d with
    | some r => simpa [Status.roundLE3] using h
    | none =>
      by_cases h4 : i + 1 = 4
      · simp [h4, Status.roundLE3]
      · simp only [Status.roundLE3] at h
        simp only [if_neg h4, Status.roundLE3]
        omega
  | Napping r =>
    simp only [Status.elapsed]
    cases Duration.checked_sub r d <;> simp [Status.roundLE3]

/-- Every `update` operation preserves the round bound. -/
theorem roundLE3_applyOp (p : Pomo) (o : Op) (h : p.status.roundLE3) :
    ((applyOp p o).status).roundLE3 := by
  cases o with
  | advance d =>
    simp only [applyOp, Pomo.elapsed]
    by_cases hp : p.paused
    · simpa [hp] using h
    · simpa [hp] using roundLE3_elapsed p.status d h
  | toggle => simpa [applyOp, Pomo.toggle_pause] using h
  | reset => simp [applyOp, Pomo.new, Pomo.default, Status.default, Status.roundLE3]

/-- The round bound is inductive along any operation sequence. -/
theorem roundLE3_runOps (l : List Op) (p : Pomo) (h : p.status.roundLE3) :
    ((runOps p l).status).roundLE3 := by
  induction l generalizing p with
  | nil => exact h
  | cons o l ih => exact ih (applyOp p o) (roundLE3_applyOp p o h)

/-- If `Status::elapsed` lands on round 0 starting from a phase whose round
is not 0, the starting phase was `Napping`. -/
theorem status_round_zero (s : Status) (d : Duration)
    (h0 : ((Status.elapsed s d).1).round = some 0) (hne : s.round ≠ some 0) :
    ∃ r, s = Status.Napping r := by
  cases s with
  | Working i r =>
    rcases hsub : Duration.checked_sub r d with _ | r2 <;>
      simp [Status.elapsed, hsub, Status.round] at h0 hne <;>
      exact absurd h0 hne
  | Resting i r =>
    rcases hsub : Duration.checked_sub r d with _ | r2
    · by_cases h4 : i + 1 = 4
      · simp [Status.elapsed, hsub, h4, Status.round] at h0
      · simp [Status.elapsed, hsub, h4, Status.round] at h0
    · simp [Status.elapsed, hsub, Status.round] at h0 hne
      exact absurd h0 hne
  | Napping r => exact ⟨r, rfl⟩

/-- An `update` step can set the round to 0 from a state whose round is not
0 only by the Napping-to-Working transition or by an explicit reset. -/
theorem round_zero_source (p : Pomo) (o : Op)
    (h0 : (applyOp p o).status.round = some 0) (hne : p.status.round ≠ some 0) :
    o = Op.reset ∨ ∃ r, p.status = Status.Napping r := by
  cases o with
  | reset => exact Or.inl rfl
  | toggle =>
    exact absurd (by simpa [applyOp, Pomo.toggle_pause] using h0) hne
  | advance d =>
    by_cases hp : p.paused
    · exact absurd (by simpa [applyOp, Pomo.elapsed, hp] using h0) hne
    · refine Or.inr (status_round_zero p.status d ?_ hne)
      simpa [applyOp, Pomo.elapsed, hp] using h0

/-- C5: every state reachable from the default session by advance,
toggle-pause and reset operations has a non-negative remaining duration,
a round in [0, 3] for Working/Resting phases, and its round can become 0
only through the Napping-to-Working transition or an explicit reset. -/
theorem C5_state_invariant (p : Pomo) (h : Reachable p) :
    Status.roundLE3 p.status ∧ 0 ≤ (Status.remain p.status : Int) ∧
    ∀ o : Op, (applyOp p o).status.round = some 0 → p.status.round ≠ some 0 →
      o = Op.reset ∨ ∃ r, p.status = Status.Napping r := by
  obtain ⟨l, rfl⟩ := h
  refine ⟨roundLE3_runOps l Pomo.default ?_, Int.natCast_nonneg _,
    fun o h0 hne => round_zero_source _ o h0 hne⟩
  simp [Pomo.default, Status.default, Status.roundLE3]

/-- Witness for C5 at the default session (reachable by the empty
sequence). -/
theorem C5_state_invariant_witness :
    Status.roundLE3 Pomo.default.status ∧ 0 ≤ (Status.remain Pomo.default.status : Int) :=
  ⟨(C5_state_invariant Pomo.default ⟨[], rfl⟩).1,
   (C5_state_invariant Pomo.default ⟨[], rfl⟩).2.1⟩

/-- C6: while paused, `Pomo::elapsed` is inert for any elapsed duration:
the session (phase and paused flag) is unchanged and no notification is
emitted. -/
theorem C6_pause_inert (p : Pomo) (d : Duration) (h : p.paused = true) :
    Pomo.elapsed p d = (p, []) := by
  simp [Pomo.elapsed, h]

/-- Witness for C6: a paused default session advanced by a huge duration. -/
theorem C6_pause_inert_witness :
    Pomo.elapsed (Pomo.mk true Status.default) 999999999999999
      = (Pomo.mk true Status.default, []) :=
  C6_pause_inert (Pomo.mk true Status.default) 999999999999999 rfl

/-- C7: `Pomo::toggle_pause` negates the paused flag, leaves the phase
unchanged, and is an involution. -/
theorem C7_toggle_pause_involution (p : Pomo) :
    (p.toggle_pause).paused = !p.paused ∧ (p.toggle_pause).status = p.status ∧
    p.toggle_pause.toggle_pause = p := by
  cases p with
  | mk paused status => cases paused <;> simp [Pomo.toggle_pause]

/-- C9: advancing by a zero elapsed duration is the identity on every
phase and every session — including a phase with remaining exactly 0,
which stays in place — and emits no notification. -/
theorem C9_zero_advance_identity :
    (∀ s : Status, Status.elapsed s 0 = (s, [])) ∧
    (∀ p : Pomo, Pomo.elapsed p 0 = (p, [])) ∧
    Status.elapsed (Status.Working 0 0) 0 = (Status.Working 0 0, []) := by
  have hs : ∀ s : Status, Status.elapsed s 0 = (s, []) := by
    intro s
    cases s <;> simp [Status.elapsed, Duration.checked_sub]
  refine ⟨hs, fun p => ?_, hs (Status.Working 0 0)⟩
  cases p with
  | mk paused status => cases paused <;> simp [Pomo.elapsed, hs]

/-- C10: `Pomo::elapsed` never modifies the paused flag, for any session
and any elapsed duration. -/
theorem C10_advance_preserves_paused (p : Pomo) (d : Duration) :
    ((Pomo.elapsed p d).1).paused = p.paused := by
  by_cases hp : p.paused <;> simp [Pomo.elapsed, hp]

/-- With positive fuel, `Nat.toDigitsCore` emits at least one digit on top
of the accumulator. -/
theorem toDigitsCore_length_succ (b : Nat) :
    ∀ (f m : Nat) (acc : List Char),
      acc.length + 1 ≤ (Nat.toDigitsCore b (f + 1) m acc).length := by
  intro f
  induction f with
  | zero =>
    intro m acc
    simp only [Nat.toDigitsCore]
    split <;> simp [Nat.toDigitsCore]
  | succ f ih =>
    intro m acc
    simp only [Nat.toDigitsCore]
    split
    · simp
    · refine le_trans ?_ (ih (m / b) (Nat.digitChar (m % b) :: acc))
      simp only [List.length_cons]
      omega

/-- One-digit numbers print as a single character. -/
theorem repr_length_lt_ten : ∀ n, n < 10 → (Nat.repr n).length = 1 := by decide

/-- Numbers with at least two decimal digits print with length at least
two. -/
theorem repr_length_ge_two (n : Nat) (h : 10 ≤ n) : 2 ≤ (Nat.repr n).length := by
  obtain ⟨m, rfl⟩ : ∃ m, n = m + 1 := ⟨n - 1, by omega⟩
  have hdiv : ¬ (m + 1) / 10 = 0 := by omega
  show 2 ≤ (Nat.toDigitsCore 10 (m + 1 + 1) (m + 1) []).length
  simp only [Nat.toDigitsCore, hdiv, if_false]
  exact toDigitsCore_length_succ 10 m ((m + 1) / 10) [Nat.digitChar ((m + 1) % 10)]

/-- Left-padding to width 2 prepends one pad character to a length-1
string. -/
theorem leftpad_two_length_one (s : String) (h : s.length = 1) :
    String.leftpad 2 '0' s = "0" ++ s := by
  apply String.ext
  show List.leftpad 2 '0' s.data = ("0" ++ s).data
  rw [String.data_append]
  have hd : s.data.length = 1 := h
  simp [List.leftpad, hd]

/-- Left-padding to width 2 leaves a string of length at least 2
unchanged. -/
theorem leftpad_two_length_ge (s : String) (h : 2 ≤ s.length) :
    String.leftpad 2 '0' s = s := by
  apply String.ext
  show List.leftpad 2 '0' s.data = s.data
  have hd : 2 ≤ s.data.length := h
  simp [List.leftpad]
  omega

/-- Modelled from the spec: zero-padding a decimal number to a minimum
width of 2, written as left-padding its decimal representation with the
digit 0. -/
def specPad2 (n : Nat) : String := String.leftpad 2 '0' (Nat.repr n)

/-- The source's `{:02}` padding agrees with the spec's width-2
zero-padding for every number. -/
theorem pad2_eq_specPad2 (n : Nat) : pad2 n = specPad2 n := by
  by_cases h : n < 10
  · simp only [pad2, specPad2, if_pos h,
      leftpad_two_length_one (Nat.repr n) (repr_length_lt_ten n h)]
    rfl
  · simp only [pad2, specPad2, if_neg h,
      leftpad_two_length_ge (Nat.repr n) (repr_length_ge_two n (Nat.not_lt.mp h))]
    rfl

/-- Modelled from the spec: `format_status(session)` renders the phase
name, the 1-based round number (internal 0-based round plus 1) for
Working and Resting, the remaining time as MM:SS with minutes =
floor(seconds/60) and seconds = seconds % 60 both zero-padded to width 2,
and appends " [paused]" exactly when paused. -/
def format_status (p : Pomo) : String :=
  (match p.status with
   | Status.Working i d =>
     "Working(round " ++ toString (i + 1) ++ "): remaining " ++
       specPad2 (d.as_secs / 60) ++ ":" ++ specPad2 (d.as_secs % 60)
   | Status.Resting i d =>
     "Resting(round " ++ toString (i + 1) ++ "): remaining " ++
       specPad2 (d.as_secs / 60) ++ ":" ++ specPad2 (d.as_secs % 60)
   | Status.Napping d =>
     "Napping: remaining " ++ specPad2 (d.as_secs / 60) ++ ":" ++
       specPad2 (d.as_secs % 60))
    ++ (if p.paused then (" [paused]") else (""))

/-- C8: the rendered status equals the spec's `format_status` for every
session (phase name, 1-based round, MM:SS both zero-padded to width 2,
" [paused]" appended exactly when paused); in particular
`Working(0, 90 s)` unpaused renders as "Working(round 1): remaining
01:30". -/
theorem C8_format_status :
    (∀ p : Pomo, Pomo.display p = format_status p) ∧
    Pomo.display (Pomo.mk false (Status.Working 0 (Duration.from_secs 90)))
      = "Working(round 1): remaining 01:30" := by
  constructor
  · intro p
    obtain ⟨paused, status⟩ := p
    cases status <;>
      simp [Pomo.display, Status.display, format_status, pad2_eq_specPad2]
  · decide
